import Mathlib

/-!
Shallow embedding of the supervisor script
`.github/actions/run-patina-qemu-validation/run_qemu_validation.py` and of the
log-scanning utility `.github/actions/extract-build-errors/extract_build_errors.py`.

Pure helpers of the scripts become Lean functions.  Effectful parts of `main`
(process wait, kill, filesystem checks) are modelled by an explicit environment
record describing what the outside world does, and `main` becomes a function
from configuration and environment to an outcome record that also carries the
trace of externally visible events, in program order.
-/

/-! ### Boolean coercion (`_coerce_bool`, `_load_config`) -/

/-- A value that may arrive for a boolean JSON key: a genuine JSON bool or a
string (the annotation of `_coerce_bool` is `bool | str`). -/
inductive JsonBool where
  | jbool (b : Bool)
  | jstr (s : String)
deriving DecidableEq

/-- ASCII lowercasing of one character, as `str.lower` acts on ASCII. -/
def pyLowerChar (c : Char) : Char :=
  if 'A' ≤ c ∧ c ≤ 'Z' then Char.ofNat (c.toNat + 32) else c

/-- `str.lower`, modelled on the ASCII range. -/
def pyLower (s : String) : String := String.mk (s.data.map pyLowerChar)

/-- `_coerce_bool`: a genuine bool passes through; anything else is converted
to its string form, lowercased, and compared with "true". -/
def coerce_bool : JsonBool → Bool
  | JsonBool.jbool b => b
  | JsonBool.jstr s => pyLower s == "true"

/-- The boolean part of `_load_config`: `setdefault` applies the default
`False` when the key is absent, then `_coerce_bool` normalises the value. -/
def load_config_bools (no_build shutdown_after_run : Option JsonBool) :
    Bool × Bool :=
  (coerce_bool (no_build.getD (JsonBool.jbool false)),
   coerce_bool (shutdown_after_run.getD (JsonBool.jbool false)))

/-! ### Resolved configuration and the composed command line -/

/-- The configuration record after `_load_config` has applied defaults and
coerced the two boolean fields. -/
structure RunConfig where
  build_target : String
  fw_patch_repo : String
  patina_dxe_core_repo : String
  patina_qemu_repo : String
  platform : String
  pre_compiled_rom : String
  toolchain : String
  qemu_path : String
  no_build : Bool
  shutdown_after_run : Bool
  log_file : String
deriving DecidableEq

/-- `pathlib.Path(config["patina_qemu_repo"]) / "build_and_run_rust_binary.py"`. -/
def script_path (cfg : RunConfig) : String :=
  cfg.patina_qemu_repo ++ "/build_and_run_rust_binary.py"

/-- The command list composed in `main` before launching the subprocess.
`config.get("qemu_path")` is truthy exactly when the string is non-empty. -/
def build_cmd (pythonExe : String) (cfg : RunConfig) : List String :=
  [pythonExe, script_path cfg,
   "--build-target", cfg.build_target,
   "--fw-patch-repo", cfg.fw_patch_repo,
   "--patina-dxe-core-repo", cfg.patina_dxe_core_repo,
   "--platform", cfg.platform,
   "--pre-compiled-rom", cfg.pre_compiled_rom,
   "--toolchain", cfg.toolchain]
  ++ (if cfg.qemu_path ≠ "" then ["--qemu-path", cfg.qemu_path] else [])
  ++ ["--headless"]
  ++ (if cfg.no_build then ["--no-build"] else [])
  ++ (if cfg.shutdown_after_run then ["--shutdown-after-run"] else [])

/-- The strings of `build_cmd` that are data rather than fixed flags: the
interpreter path, the script path and the configuration field values. -/
def cmd_value_strings (pythonExe : String) (cfg : RunConfig) : List String :=
  [pythonExe, script_path cfg, cfg.build_target, cfg.fw_patch_repo,
   cfg.patina_dxe_core_repo, cfg.platform, cfg.pre_compiled_rom,
   cfg.toolchain, cfg.qemu_path]

/-! ### Stream relay (`_stream_reader`) -/

/-- Externally visible actions of one `_stream_reader` call, in order. -/
inductive SinkEv where
  | logWrite (line : String)
  | logFlush
  | fwdWrite (line : String)
  | fwdFlush
  | streamClose
deriving DecidableEq

/-- `_stream_reader` as a trace of sink operations.  The child stream is
modelled as the list of lines `readline` yields before returning the empty
chunk; `hasFwd` says whether a mirror sink (`forward_to`) was provided.
End-of-stream falls out of the loop and closes the stream: no error path. -/
def stream_reader : List String → Bool → List SinkEv
  | [], _ => [SinkEv.streamClose]
  | l :: ls, hasFwd =>
    ([SinkEv.logWrite l, SinkEv.logFlush]
        ++ if hasFwd then [SinkEv.fwdWrite l, SinkEv.fwdFlush] else [])
      ++ stream_reader ls hasFwd

/-- The lines written to the log sink by a trace, in order. -/
def logWrites (t : List SinkEv) : List String :=
  t.filterMap fun e =>
    match e with
    | SinkEv.logWrite l => some l
    | _ => none

/-- The lines written to the mirror sink by a trace, in order. -/
def fwdWrites (t : List SinkEv) : List String :=
  t.filterMap fun e =>
    match e with
    | SinkEv.fwdWrite l => some l
    | _ => none

/-- Every `logWrite` is immediately followed by a `logFlush`, and every
`fwdWrite` is immediately followed by a `fwdFlush`. -/
def flushedPerLine : List SinkEv → Bool
  | [] => true
  | [SinkEv.logWrite _] => false
  | [SinkEv.fwdWrite _] => false
  | SinkEv.logWrite _ :: e :: rest =>
      (e == SinkEv.logFlush) && flushedPerLine (e :: rest)
  | SinkEv.fwdWrite _ :: e :: rest =>
      (e == SinkEv.fwdFlush) && flushedPerLine (e :: rest)
  | _ :: rest => flushedPerLine rest

/-! ### Process tree termination (`_kill_process_tree`) -/

/-- The only exception `_kill_process_tree` can see on the POSIX path. -/
inductive PErr where
  | processLookupError
deriving DecidableEq

/-- The subprocess handle: whether the process group is still alive, and the
exit status recorded so far (set by a wait, never by a kill). -/
structure ProcHandle where
  alive : Bool
  recordedExit : Option Int
deriving DecidableEq

/-- `os.killpg(pid, SIGKILL)`: kills a live group, raises
`ProcessLookupError` when the group is already gone. -/
def killpg (p : ProcHandle) : Except PErr ProcHandle :=
  if p.alive then Except.ok { p with alive := false }
  else Except.error PErr.processLookupError

/-- `taskkill /T /F /PID` run with `capture_output=True`: tears the tree down
when alive; a failure for an already-gone process is captured and ignored. -/
def taskkillTree (p : ProcHandle) : ProcHandle :=
  if p.alive then { p with alive := false } else p

/-- `_kill_process_tree`: Windows uses `taskkill`, POSIX signals the process
group and swallows `ProcessLookupError`. -/
def kill_process_tree (isWin : Bool) (p : ProcHandle) : Except PErr ProcHandle :=
  if isWin then Except.ok (taskkillTree p)
  else
    match killpg p with
    | Except.ok p2 => Except.ok p2
    | Except.error PErr.processLookupError => Except.ok p

example : kill_process_tree false { alive := false, recordedExit := some 3 }
    = Except.ok { alive := false, recordedExit := some 3 } := rfl

example : coerce_bool (JsonBool.jstr "1") = false := by decide
example : coerce_bool (JsonBool.jstr "True") = true := by decide

/-! ### Timing record (`_write_timing`)

Elapsed durations are modelled as exact rationals.  Python's `round` and the
`:.0f` / `:.1f` format specifiers round half to even; `divmod(e, 60)` on
non-negative floats is `(⌊e/60⌋, e - 60*⌊e/60⌋)`. -/

/-- Round half to even, as Python `round` and the `f`-format specifier do. -/
def rndHE (q : ℚ) : ℤ :=
  if q - ⌊q⌋ < 1/2 then ⌊q⌋
  else if 1/2 < q - ⌊q⌋ then ⌊q⌋ + 1
  else if Even ⌊q⌋ then ⌊q⌋ else ⌊q⌋ + 1

/-- `round(x, 2)`: round half to even at two decimal places. -/
def roundPy2 (q : ℚ) : ℚ := (rndHE (100 * q) : ℚ) / 100

/-- The `f"{x:.0f}"` rendering of a non-negative value. -/
def fmtF0 (q : ℚ) : String := toString (rndHE q)

/-- The `f"{x:.1f}"` rendering of a non-negative value. -/
def fmtF1 (q : ℚ) : String :=
  toString (rndHE (10 * q) / 10) ++ "." ++ toString (rndHE (10 * q) % 10)

/-- The `elapsed_display` expression of `_write_timing`:
`minutes, secs = divmod(elapsed_seconds, 60)`, then
`f"{int(minutes)}m {secs:.0f}s"` when `minutes >= 1`, else `f"{secs:.1f}s"`. -/
def elapsedDisplay (q : ℚ) : String :=
  if 1 ≤ ⌊q / 60⌋ then
    toString ⌊q / 60⌋ ++ "m " ++ fmtF0 (q - 60 * ⌊q / 60⌋) ++ "s"
  else fmtF1 (q - 60 * ⌊q / 60⌋) ++ "s"

/-- The JSON object `_write_timing` serialises next to the log file. -/
structure TimingData where
  elapsed_seconds : ℚ
  elapsed_display : String
deriving DecidableEq

/-- `_write_timing` (the data it writes; the destination path is out of the
model). -/
def write_timing (elapsed_seconds : ℚ) : TimingData :=
  { elapsed_seconds := roundPy2 elapsed_seconds,
    elapsed_display := elapsedDisplay elapsed_seconds }

/-! ### Supervisor (`main` after `_load_config`)

The effectful outside world is an explicit environment: whether (and with
what code) the child exits inside the 300 s wait, whether the bounded
post-kill wait observes an exit, and which artifact directories exist.  The
outcome carries the exit code `main` returns, the timed-out flag, and the
trace of externally visible events in program order. -/

/-- Wall-clock bound on the subprocess (`SUBPROCESS_TIMEOUT_SECONDS`). -/
def SUBPROCESS_TIMEOUT_SECONDS : ℕ := 300

/-- Bound on the post-kill re-wait and the relay joins
(`THREAD_JOIN_TIMEOUT_SECONDS`). -/
def THREAD_JOIN_TIMEOUT_SECONDS : ℕ := 15

/-- What the outside world does during one run of `main`. -/
structure RunEnv where
  /-- `some rc` when `process.wait(timeout=300)` returns `rc`; `none` when it
  raises `TimeoutExpired`. -/
  waitResult : Option Int
  /-- `some rc` when the post-kill `process.wait(timeout=15)` returns `rc`;
  `none` when it raises `TimeoutExpired` again. -/
  postKillWait : Option Int
  /-- Whether `<patina_qemu_repo>/Build/shutdown_drive` exists. -/
  shutdownDriveExists : Bool
  /-- Whether `<patina_qemu_repo>/Build/shutdown_drive/UefiLogs` exists. -/
  uefiLogsExists : Bool
deriving DecidableEq

/-- Externally visible events of `main`, in program order. -/
inductive SupEv where
  | killTree
  | writeTiming
  | stderrWrite (msg : String)
  | logAppend (msg : String)
deriving DecidableEq, BEq

/-- What `main` returns and does. -/
structure RunOutcome where
  exitCode : Int
  timedOut : Bool
  events : List SupEv
deriving DecidableEq

/-- The timeout message written to stderr and appended to the log. -/
def timeoutMsg : String :=
  "ERROR: build_and_run_rust_binary.py timed out after "
    ++ toString SUBPROCESS_TIMEOUT_SECONDS ++ " seconds.\n"

/-- The artifact-check failure message. -/
def artifactFailureMsg (cfg : RunConfig) : String :=
  "ERROR: Boot did not succeed: UefiLogs directory not found in '"
    ++ cfg.patina_qemu_repo ++ "/Build/shutdown_drive" ++ "'.\n"

/-- The `try/except subprocess.TimeoutExpired` block of `main`: on a timeout
the tree is killed and a bounded re-wait either observes an exit code or the
code falls back to `1`. -/
def waitPhase (env : RunEnv) : Bool × Int :=
  match env.waitResult with
  | some rc => (false, rc)
  | none => (true, env.postKillWait.getD 1)

/-- `main` after configuration loading: wait phase, timing write, then the
timeout report (which forces exit code 1, discarding any code the post-kill
wait observed) or the shutdown-after-run artifact check. -/
def mainRun (cfg : RunConfig) (env : RunEnv) : RunOutcome :=
  let tr := waitPhase env
  let timed_out := tr.1
  let return_code := tr.2
  let killEvs := if timed_out then [SupEv.killTree] else []
  if timed_out then
    { exitCode := 1, timedOut := true,
      events := killEvs ++ [SupEv.writeTiming,
        SupEv.stderrWrite timeoutMsg, SupEv.logAppend timeoutMsg] }
  else if cfg.shutdown_after_run && env.shutdownDriveExists
      && !env.uefiLogsExists then
    { exitCode := 1, timedOut := false,
      events := killEvs ++ [SupEv.writeTiming,
        SupEv.stderrWrite (artifactFailureMsg cfg),
        SupEv.logAppend (artifactFailureMsg cfg)] }
  else
    { exitCode := return_code, timedOut := false,
      events := killEvs ++ [SupEv.writeTiming] }

/-- A sample resolved configuration used by concrete instances. -/
def sampleCfg : RunConfig :=
  { build_target := "DEBUG", fw_patch_repo := "fw", patina_dxe_core_repo := "dxe",
    patina_qemu_repo := "qemu", platform := "Q35", pre_compiled_rom := "rom.fd",
    toolchain := "GCC5", qemu_path := "", no_build := false,
    shutdown_after_run := false, log_file := "out.log" }


/-! ### Diagnostic extraction (`extract_build_errors.py`)

The three regexes are modelled as decidable predicates on character lists.
Python `\s` is modelled on its ASCII subset, `\w` as alphanumerics plus
underscore; log lines carry no newline (they come from `splitlines`). -/

/-- ASCII whitespace, the characters Python `\s` (and `str.strip`) treat as
blank in this data. -/
def isSpaceChar (c : Char) : Bool :=
  c = ' ' || c = '\t' || c = '\n' || c = '\r' || c = '\x0b' || c = '\x0c'

/-- Python `\w` on ASCII: alphanumerics and underscore. -/
def isWordChar (c : Char) : Bool := c.isAlphanum || c = '_'

/-- A colon directly followed by one whitespace character, the `:` plus
trailing `\s` every alternative of `SECTION_START_RE` requires. -/
def colonThenSpace : List Char → Bool
  | ':' :: c :: _ => isSpaceChar c
  | _ => false

/-- The `error(\[E\d+\])?:` + `\s` alternative of `SECTION_START_RE`. -/
def errorStart : List Char → Bool
  | 'e' :: 'r' :: 'r' :: 'o' :: 'r' :: rest =>
    colonThenSpace rest ||
    (match rest with
     | '[' :: 'E' :: ds =>
       (match ds with
        | d :: _ =>
          d.isDigit &&
          (match ds.dropWhile Char.isDigit with
           | ']' :: rest2 => colonThenSpace rest2
           | _ => false)
        | [] => false)
     | _ => false)
  | _ => false

/-- The `warning(\[[\w\d]+\])?:` + `\s` alternative of `SECTION_START_RE`. -/
def warningStart : List Char → Bool
  | 'w' :: 'a' :: 'r' :: 'n' :: 'i' :: 'n' :: 'g' :: rest =>
    colonThenSpace rest ||
    (match rest with
     | '[' :: ds =>
       (match ds with
        | d :: _ =>
          isWordChar d &&
          (match ds.dropWhile isWordChar with
           | ']' :: rest2 => colonThenSpace rest2
           | _ => false)
        | [] => false)
     | _ => false)
  | _ => false

/-- `SECTION_START_RE.match(line)` as a Boolean. -/
def sectionStartMatch (line : String) : Bool :=
  errorStart line.data || warningStart line.data

/-- Whether `pat` occurs as a contiguous sublist of `l` (regex `search`). -/
def containsSub (pat : List Char) : List Char → Bool
  | [] => pat.isEmpty
  | c :: rest => pat.isPrefixOf (c :: rest) || containsSub pat rest

/-- `BUILD_ERROR_RE.search(line)` as a Boolean: any of the three fixed
build-failure markers occurs in the line. -/
def buildErrorSearch (line : String) : Bool :=
  containsSub "[cargo-make] ERROR".data line.data
    || containsSub "error: build failed".data line.data
    || containsSub "error: could not compile".data line.data

/-- `RUSTC_GUTTER_RE.match(line)`: optional leading whitespace, then either
digits + optional whitespace + one of `|`, `+`, `-`, or a bare `|`, or
`...`, or `:::`. -/
def gutterMatch (line : String) : Bool :=
  let rest := line.data.dropWhile isSpaceChar
  (match rest with
   | d :: more =>
     d.isDigit &&
     (match (more.dropWhile Char.isDigit).dropWhile isSpaceChar with
      | c :: _ => c = '|' || c = '+' || c = '-'
      | [] => false)
   | [] => false)
  || (match rest with
      | '|' :: _ => true
      | _ => false)
  || "...".data.isPrefixOf rest
  || ":::".data.isPrefixOf rest

/-- `RUSTC_INFO_RE.match(line)`. -/
def infoMatch (line : String) : Bool :=
  "For more information about this error".data.isPrefixOf line.data

/-- Python `str.strip()` (ASCII whitespace), on the character list. -/
def pyStrip (l : List Char) : List Char :=
  ((l.dropWhile isSpaceChar).reverse.dropWhile isSpaceChar).reverse

/-- The `is_continuation` test of `extract_error_sections`. -/
def isContinuation (line : String) : Bool :=
  let stripped := pyStrip line.data
  "|".data.isPrefixOf stripped
    || "-->".data.isPrefixOf stripped
    || "=".data.isPrefixOf stripped
    || "help:".data.isPrefixOf stripped
    || "note:".data.isPrefixOf stripped
    || gutterMatch line
    || infoMatch line
    || stripped.isEmpty

/-- The loop of `extract_error_sections`, collecting each section as its list
of lines (the source joins a section with newlines at the moment it is
appended; joining is applied afterwards in `extract_error_sections`). -/
def extractGo : List String → List String → Bool → List (List String)
  | [], cur, _ => if cur.isEmpty then [] else [cur]
  | line :: rest, cur, inSection =>
    if sectionStartMatch line then
      if cur.isEmpty then extractGo rest [line] true
      else cur :: extractGo rest [line] true
    else if inSection then
      if isContinuation line then extractGo rest (cur ++ [line]) true
      else
        cur :: (if buildErrorSearch line then [line] :: extractGo rest [] false
                else extractGo rest [] false)
    else if buildErrorSearch line then [line] :: extractGo rest [] false
    else extractGo rest [] false

/-- `"\n".join(section)`. -/
def joinNL : List String → String
  | [] => ""
  | [s] => s
  | s :: rest => s ++ "\n" ++ joinNL rest

/-- `extract_error_sections`: the collected sections, each joined with
newlines. -/
def extract_error_sections (lines : List String) : List String :=
  (extractGo lines [] false).map joinNL

/-- A well-formed diagnostic block: a section-start line followed only by
continuation lines. -/
def goodSection (sec : List String) : Prop :=
  ∃ h t, sec = h :: t ∧ sectionStartMatch h = true
    ∧ ∀ l ∈ t, isContinuation l = true

example : sectionStartMatch "error[E0425]: cannot find value x" = true := by decide
example : sectionStartMatch "error: could not compile foo" = true := by decide
example : sectionStartMatch "errors: nope" = false := by decide
example : sectionStartMatch "warning: unused import" = true := by decide
example : sectionStartMatch "error:" = false := by decide
example : buildErrorSearch "xx [cargo-make] ERROR yy" = true := by decide
example : gutterMatch "  637 | code" = true := by decide
example : gutterMatch "    | ^^^" = true := by decide
example : gutterMatch "  ::: path/to/file.rs:37:1" = true := by decide
example : isContinuation "  --> src/main.rs:1:1" = true := by decide
example : isContinuation "   " = true := by decide
example : isContinuation "Compiling foo" = false := by decide
example : extract_error_sections ["error: x", "note: y"] = ["error: x\nnote: y"] := by decide
example : extract_error_sections ["a", "error: build failed", "b"]
    = ["error: build failed"] := by decide

/-! ### Theorems -/

/-- C10: boolean configuration fields supplied as non-boolean JSON values are
coerced to `true` exactly when their lowercased string form is exactly
"true"; genuine booleans pass through unchanged, so strings such as "1",
"yes" and "on" all coerce to `false` at the configuration interface. -/
theorem coerce_bool_string_semantics :
    (∀ b, coerce_bool (JsonBool.jbool b) = b)
    ∧ (∀ s, coerce_bool (JsonBool.jstr s) = (pyLower s == "true"))
    ∧ coerce_bool (JsonBool.jstr "1") = false
    ∧ coerce_bool (JsonBool.jstr "yes") = false
    ∧ coerce_bool (JsonBool.jstr "on") = false
    ∧ coerce_bool (JsonBool.jstr "True") = true
    ∧ load_config_bools (some (JsonBool.jstr "1")) (some (JsonBool.jstr "yes"))
        = (false, false) := by
  refine ⟨fun b => rfl, fun s => rfl, ?_, ?_, ?_, ?_, ?_⟩ <;> decide

/-- C8: invoking the process-tree terminator on a handle whose process has
already exited — including invoking it twice — raises no error and leaves
the recorded exit status (indeed the whole handle) unchanged. -/
theorem kill_process_tree_already_exited (isWin : Bool) (p : ProcHandle) :
    (∃ q, kill_process_tree isWin p = Except.ok q
      ∧ q.recordedExit = p.recordedExit)
    ∧ (p.alive = false →
        kill_process_tree isWin p = Except.ok p
        ∧ (kill_process_tree isWin p).bind (kill_process_tree isWin)
            = Except.ok p) := by
  constructor
  · cases isWin <;> rcases hp : p.alive <;>
      simp [kill_process_tree, taskkillTree, killpg, hp]
  · intro h
    cases isWin <;>
      simp [kill_process_tree, taskkillTree, killpg, h, Except.bind]

/-- C8 witness: a concrete already-exited handle. -/
theorem kill_process_tree_already_exited_witness :
    kill_process_tree false { alive := false, recordedExit := some 0 }
      = Except.ok { alive := false, recordedExit := some 0 } :=
  ((kill_process_tree_already_exited false
      { alive := false, recordedExit := some 0 }).2 rfl).1

/-- C6: the stream relay writes every arriving line to the log sink in
arrival order, flushing after each line; with a mirror sink it writes the
same lines to the mirror in the same order, also flushed per line; without
one it writes nothing to the mirror; end-of-stream terminates the relay
normally, closing the stream as the final action. -/
theorem stream_reader_relays_in_order (lines : List String) (hasFwd : Bool) :
    logWrites (stream_reader lines hasFwd) = lines
    ∧ fwdWrites (stream_reader lines true) = lines
    ∧ fwdWrites (stream_reader lines false) = []
    ∧ flushedPerLine (stream_reader lines hasFwd) = true
    ∧ (stream_reader lines hasFwd).getLast? = some SinkEv.streamClose := by
  induction lines with
  | nil =>
    cases hasFwd <;>
      exact ⟨rfl, rfl, rfl, rfl, rfl⟩
  | cons l ls ih =>
    obtain ⟨ih1, ih2, ih3, ih4, ih5⟩ := ih
    cases hasFwd <;>
      refine ⟨?_, ?_, ?_, ?_, ?_⟩ <;>
        simp_all [stream_reader, logWrites, fwdWrites, flushedPerLine] <;>
          cases hls : stream_reader ls false <;>
            cases hls2 : stream_reader ls true <;>
              simp_all [flushedPerLine]

/-- C7: the composed command line always contains the six required flags and
the fixed `--headless` flag, and contains each optional flag exactly when the
corresponding configuration field is set, provided no data string of the
configuration collides with an optional flag literal. -/
theorem build_cmd_flags (pythonExe : String) (cfg : RunConfig)
    (h1 : "--qemu-path" ∉ cmd_value_strings pythonExe cfg)
    (h2 : "--no-build" ∉ cmd_value_strings pythonExe cfg)
    (h3 : "--shutdown-after-run" ∉ cmd_value_strings pythonExe cfg) :
    "--build-target" ∈ build_cmd pythonExe cfg
    ∧ "--fw-patch-repo" ∈ build_cmd pythonExe cfg
    ∧ "--patina-dxe-core-repo" ∈ build_cmd pythonExe cfg
    ∧ "--platform" ∈ build_cmd pythonExe cfg
    ∧ "--pre-compiled-rom" ∈ build_cmd pythonExe cfg
    ∧ "--toolchain" ∈ build_cmd pythonExe cfg
    ∧ "--headless" ∈ build_cmd pythonExe cfg
    ∧ ("--qemu-path" ∈ build_cmd pythonExe cfg ↔ cfg.qemu_path ≠ "")
    ∧ ("--no-build" ∈ build_cmd pythonExe cfg ↔ cfg.no_build = true)
    ∧ ("--shutdown-after-run" ∈ build_cmd pythonExe cfg
        ↔ cfg.shutdown_after_run = true) := by
  by_cases hq : cfg.qemu_path = "" <;>
    by_cases hn : cfg.no_build = true <;>
      by_cases hs : cfg.shutdown_after_run = true <;>
        simp_all [build_cmd, cmd_value_strings]

/-- C7 witness: the required and optional flags at a concrete configuration. -/
theorem build_cmd_flags_witness :
    "--headless" ∈ build_cmd "python3" sampleCfg
    ∧ ("--no-build" ∈ build_cmd "python3" sampleCfg
        ↔ sampleCfg.no_build = true)
    ∧ ("--qemu-path" ∈ build_cmd "python3" sampleCfg
        ↔ sampleCfg.qemu_path ≠ "") := by
  have h := build_cmd_flags "python3" sampleCfg (by decide) (by decide)
    (by decide)
  exact ⟨h.2.2.2.2.2.2.1, h.2.2.2.2.2.2.2.2.1, h.2.2.2.2.2.2.2.1⟩

/-- Half-to-even rounding is within one half of its argument. -/
theorem rndHE_close (q : ℚ) : |(rndHE q : ℚ) - q| ≤ 1/2 := by
  have h0 : (0:ℚ) ≤ q - ⌊q⌋ := by linarith [Int.floor_le q]
  have h1 : q - ⌊q⌋ < 1 := by linarith [Int.lt_floor_add_one q]
  unfold rndHE
  split_ifs with hf hg he
  · rw [abs_le]; constructor <;> linarith
  · push_cast
    rw [abs_le]; constructor <;> linarith
  · rw [abs_le]; constructor <;> linarith
  · push_cast
    rw [abs_le]; constructor <;> linarith

/-- `round(x, 2)` is within half of a hundredth of its argument. -/
theorem roundPy2_close (q : ℚ) : |roundPy2 q - q| ≤ 1/200 := by
  have h := rndHE_close (100 * q)
  unfold roundPy2
  rw [abs_le] at h ⊢
  obtain ⟨ha, hb⟩ := h
  constructor <;> linarith

/-- C5: the timing record stores as `elapsed_seconds` the measured elapsed
duration rounded (half to even) at two decimal places: a multiple of one
hundredth within half a hundredth of the measured value. -/
theorem write_timing_elapsed_seconds (q : ℚ) :
    (write_timing q).elapsed_seconds = roundPy2 q
    ∧ |(write_timing q).elapsed_seconds - q| ≤ 1/200
    ∧ ∃ k : ℤ, (write_timing q).elapsed_seconds = (k : ℚ) / 100 :=
  ⟨rfl, roundPy2_close q, ⟨rndHE (100 * q), rfl⟩⟩

/-- C4: the human display renders durations under one minute as seconds with
one decimal place followed by "s", and durations of a minute or more as
integer minutes, "m", and rounded integer seconds, "s"; in particular 45.3
seconds renders as "45.3s" and 125 seconds as "2m 5s". -/
theorem elapsed_display_format :
    (∀ q : ℚ, 0 ≤ q → q < 60 → elapsedDisplay q = fmtF1 q ++ "s")
    ∧ (∀ q : ℚ, 60 ≤ q →
        1 ≤ ⌊q / 60⌋
        ∧ elapsedDisplay q
            = toString ⌊q / 60⌋ ++ "m " ++ fmtF0 (q - 60 * ⌊q / 60⌋) ++ "s")
    ∧ elapsedDisplay (453/10) = "45.3s"
    ∧ elapsedDisplay 125 = "2m 5s" := by
  refine ⟨?_, ?_, ?_, ?_⟩
  · intro q h0 h60
    have hz : ⌊q / 60⌋ = 0 := by
      rw [Int.floor_eq_zero_iff]
      constructor
      · positivity
      · rw [div_lt_one (by norm_num : (0:ℚ) < 60)]
        exact h60
    rw [elapsedDisplay, hz]
    norm_num
  · intro q h60
    have h1 : 1 ≤ ⌊q / 60⌋ := by
      rw [Int.le_floor]
      rw [le_div_iff₀ (by norm_num : (0:ℚ) < 60)]
      push_cast
      linarith
    exact ⟨h1, by rw [elapsedDisplay, if_pos h1]⟩
  · have hz : ⌊(453/10 : ℚ) / 60⌋ = 0 := by norm_num [Int.floor_eq_iff]
    have hr : rndHE (10 * (453/10 - 60 * ((0:ℤ) : ℚ))) = 453 := by
      norm_num [rndHE, Int.floor_eq_iff]
    rw [elapsedDisplay, hz, fmtF1, hr]
    norm_num
    rfl
  · have hm : ⌊(125 : ℚ) / 60⌋ = 2 := by norm_num [Int.floor_eq_iff]
    have hr : rndHE (125 - 60 * ((2:ℤ) : ℚ)) = 5 := by
      norm_num [rndHE, Int.floor_eq_iff]
    rw [elapsedDisplay, hm, fmtF0, hr]
    norm_num
    rfl

/-- C4 witness: the two branch rules applied at concrete durations. -/
theorem elapsed_display_format_witness :
    elapsedDisplay (453/10) = fmtF1 (453/10) ++ "s"
    ∧ 1 ≤ ⌊(125 : ℚ) / 60⌋ :=
  ⟨elapsed_display_format.1 (453/10) (by norm_num) (by norm_num),
   (elapsed_display_format.2.1 125 (by norm_num)).1⟩

/-- C1: when the child does not exit within the timeout, `main` returns the
forced-failure sentinel 1 — never the child's native code, even if the
post-kill bounded wait observes one — the timed-out flag is true, and the
process-tree terminator runs exactly once. -/
theorem timeout_forces_sentinel (cfg : RunConfig) (env : RunEnv)
    (h : env.waitResult = none) :
    (mainRun cfg env).exitCode = 1
    ∧ (mainRun cfg env).timedOut = true
    ∧ (mainRun cfg env).events.count SupEv.killTree = 1 := by
  have hm : mainRun cfg env =
      { exitCode := 1, timedOut := true,
        events := [SupEv.killTree, SupEv.writeTiming,
          SupEv.stderrWrite timeoutMsg, SupEv.logAppend timeoutMsg] } := by
    simp [mainRun, waitPhase, h]
  rw [hm]
  exact ⟨rfl, rfl, by decide⟩

/-- C1 witness: a timed-out run whose post-kill wait observes a native exit
code (7) still yields the sentinel. -/
theorem timeout_forces_sentinel_witness :
    (mainRun sampleCfg
      { waitResult := none, postKillWait := some 7,
        shutdownDriveExists := true, uefiLogsExists := true }).exitCode = 1
    ∧ (mainRun sampleCfg
      { waitResult := none, postKillWait := some 7,
        shutdownDriveExists := true, uefiLogsExists := true }).timedOut = true
    ∧ (mainRun sampleCfg
      { waitResult := none, postKillWait := some 7,
        shutdownDriveExists := true,
        uefiLogsExists := true }).events.count SupEv.killTree = 1 :=
  timeout_forces_sentinel sampleCfg
    { waitResult := none, postKillWait := some 7,
      shutdownDriveExists := true, uefiLogsExists := true } rfl

/-- C2 counterexample: a run whose child exits with native code 0 before the
timeout, but with shutdown-after-run requested, `shutdown_drive` present and
`UefiLogs` absent, returns 1 instead of the native code. -/
theorem run_native_exit_cex :
    ({ waitResult := some 0, postKillWait := none, shutdownDriveExists := true,
        uefiLogsExists := false } : RunEnv).waitResult = some 0
    ∧ (mainRun { sampleCfg with shutdown_after_run := true }
        { waitResult := some 0, postKillWait := none,
          shutdownDriveExists := true, uefiLogsExists := false }).exitCode
        ≠ 0 := by
  refine ⟨rfl, ?_⟩
  decide

/-- C2 (amended): when the child exits before the timeout the timed-out flag
is false, and the returned exit code equals the child's native code provided
the shutdown-after-run artifact check does not fail (it is not requested, or
`shutdown_drive` is missing, or `UefiLogs` is present). -/
theorem run_completes_native_exit (cfg : RunConfig) (env : RunEnv) (rc : Int)
    (h : env.waitResult = some rc) :
    (mainRun cfg env).timedOut = false
    ∧ ((cfg.shutdown_after_run && env.shutdownDriveExists
          && !env.uefiLogsExists) = false →
        (mainRun cfg env).exitCode = rc) := by
  constructor
  · by_cases hc : (cfg.shutdown_after_run && env.shutdownDriveExists
        && !env.uefiLogsExists) = true
    · simp [mainRun, waitPhase, h, hc]
    · simp only [Bool.not_eq_true] at hc
      simp [mainRun, waitPhase, h, hc]
  · intro hchk
    simp [mainRun, waitPhase, h, hchk]

/-- C2 witness: a clean run with native exit code 5 and no artifact check. -/
theorem run_completes_native_exit_witness :
    (mainRun sampleCfg
      { waitResult := some 5, postKillWait := none,
        shutdownDriveExists := false, uefiLogsExists := false }).timedOut
        = false
    ∧ (mainRun sampleCfg
      { waitResult := some 5, postKillWait := none,
        shutdownDriveExists := false, uefiLogsExists := false }).exitCode
        = 5 := by
  have h := run_completes_native_exit sampleCfg
    { waitResult := some 5, postKillWait := none,
      shutdownDriveExists := false, uefiLogsExists := false } 5 rfl
  exact ⟨h.1, h.2 (by decide)⟩

/-- C3 counterexample: shutdown-after-run requested and the expected post-run
artifact directory absent (because `shutdown_drive` itself is absent), yet
`main` returns the native code 0 with no failure message: the events are the
timing write alone. -/
theorem artifact_check_absent_cex :
    (mainRun { sampleCfg with shutdown_after_run := true }
      { waitResult := some 0, postKillWait := none,
        shutdownDriveExists := false, uefiLogsExists := false }).exitCode = 0
    ∧ (mainRun { sampleCfg with shutdown_after_run := true }
      { waitResult := some 0, postKillWait := none,
        shutdownDriveExists := false, uefiLogsExists := false }).events
      = [SupEv.writeTiming] := by
  refine ⟨?_, ?_⟩ <;> decide

/-- C3 (amended): on a non-timeout run with shutdown-after-run requested, the
artifact check runs regardless of the native code: when `shutdown_drive`
exists and `UefiLogs` is absent, `main` returns 1 and both appends a
descriptive message to the log and mirrors it to stderr; when
`shutdown_drive` itself is absent the check silently passes and the native
code is returned. -/
theorem artifact_check_failure (cfg : RunConfig) (env : RunEnv) (rc : Int)
    (h : env.waitResult = some rc)
    (hreq : cfg.shutdown_after_run = true) :
    (env.shutdownDriveExists = true → env.uefiLogsExists = false →
      (mainRun cfg env).exitCode = 1
      ∧ (mainRun cfg env).timedOut = false
      ∧ SupEv.logAppend (artifactFailureMsg cfg) ∈ (mainRun cfg env).events
      ∧ SupEv.stderrWrite (artifactFailureMsg cfg) ∈ (mainRun cfg env).events)
    ∧ (env.shutdownDriveExists = false → (mainRun cfg env).exitCode = rc) := by
  constructor
  · intro hd hu
    simp [mainRun, waitPhase, h, hreq, hd, hu]
  · intro hd
    simp [mainRun, waitPhase, h, hreq, hd]

/-- C3 witness: a failing artifact check at a concrete configuration. -/
theorem artifact_check_failure_witness :
    (mainRun { sampleCfg with shutdown_after_run := true }
      { waitResult := some 0, postKillWait := none,
        shutdownDriveExists := true, uefiLogsExists := false }).exitCode = 1
    ∧ SupEv.logAppend (artifactFailureMsg
          { sampleCfg with shutdown_after_run := true })
        ∈ (mainRun { sampleCfg with shutdown_after_run := true }
          { waitResult := some 0, postKillWait := none,
            shutdownDriveExists := true, uefiLogsExists := false }).events := by
  have h := (artifact_check_failure { sampleCfg with shutdown_after_run := true }
    { waitResult := some 0, postKillWait := none,
      shutdownDriveExists := true, uefiLogsExists := false } 0 rfl rfl).1
    rfl rfl
  exact ⟨h.1, h.2.2.1⟩

/-- Every section the extraction loop collects is a well-formed diagnostic
block or a single build-error line, given that the running section (when one
is open) is itself well formed. -/
theorem extractGo_sound :
    ∀ (lines : List String) (cur : List String) (inSection : Bool),
      (inSection = true → goodSection cur) →
      (inSection = false → cur = []) →
      ∀ sec ∈ extractGo lines cur inSection,
        goodSection sec ∨ ∃ l, sec = [l] ∧ buildErrorSearch l = true := by
  intro lines
  induction lines with
  | nil =>
    intro cur inSection hT hF sec hsec
    rw [extractGo] at hsec
    by_cases hc : cur.isEmpty
    · rw [if_pos hc] at hsec
      exact absurd hsec (List.not_mem_nil sec)
    · rw [if_neg hc] at hsec
      have hs := List.mem_singleton.mp hsec
      subst hs
      left
      cases inSection
      · simp [hF rfl] at hc
      · exact hT rfl
  | cons line rest ih =>
    intro cur inSection hT hF sec hsec
    rw [extractGo] at hsec
    by_cases hstart : sectionStartMatch line = true
    · rw [if_pos hstart] at hsec
      have hnew := ih [line] true
        (fun _ => ⟨line, [], rfl, hstart, fun l hl => absurd hl (List.not_mem_nil l)⟩)
        (fun h => absurd h (by decide))
      by_cases hc : cur.isEmpty
      · rw [if_pos hc] at hsec
        exact hnew sec hsec
      · rw [if_neg hc] at hsec
        rcases List.mem_cons.mp hsec with rfl | hs
        · left
          cases inSection
          · simp [hF rfl] at hc
          · exact hT rfl
        · exact hnew sec hs
    · rw [if_neg hstart] at hsec
      cases inSection with
      | true =>
        rw [if_pos rfl] at hsec
        by_cases hcont : isContinuation line = true
        · rw [if_pos hcont] at hsec
          refine ih (cur ++ [line]) true ?_ (fun h => absurd h (by decide)) sec hsec
          intro _
          obtain ⟨hd, t, hct, hsh, hcont_t⟩ := hT rfl
          refine ⟨hd, t ++ [line], by rw [hct]; rfl, hsh, ?_⟩
          intro l hl
          rcases List.mem_append.mp hl with hl1 | hl2
          · exact hcont_t l hl1
          · rw [List.mem_singleton.mp hl2]
            exact hcont
        · rw [if_neg hcont] at hsec
          rcases List.mem_cons.mp hsec with rfl | hs
          · left
            exact hT rfl
          · by_cases hbe : buildErrorSearch line = true
            · rw [if_pos hbe] at hs
              rcases List.mem_cons.mp hs with rfl | hs2
              · right
                exact ⟨line, rfl, hbe⟩
              · exact ih [] false (fun h => absurd h (by decide)) (fun _ => rfl) sec hs2
            · rw [if_neg hbe] at hs
              exact ih [] false (fun h => absurd h (by decide)) (fun _ => rfl) sec hs
      | false =>
        rw [if_neg (by decide : ¬(false = true))] at hsec
        by_cases hbe : buildErrorSearch line = true
        · rw [if_pos hbe] at hsec
          rcases List.mem_cons.mp hsec with rfl | hs
          · right
            exact ⟨line, rfl, hbe⟩
          · exact ih [] false (fun h => absurd h (by decide)) (fun _ => rfl) sec hs
        · rw [if_neg hbe] at hsec
          exact ih [] false (fun h => absurd h (by decide)) (fun _ => rfl) sec hsec

/-- C9: every string `extract_error_sections` returns is the newline-join of
a section that either starts with a section-start line followed only by
continuation lines, or is a single build-system error line; and a section
still open at end of input is flushed (the concrete run ends mid-section). -/
theorem extract_error_sections_shape :
    (∀ (lines : List String) (s : String), s ∈ extract_error_sections lines →
      ∃ sec, s = joinNL sec
        ∧ (goodSection sec ∨ ∃ l, sec = [l] ∧ buildErrorSearch l = true))
    ∧ extract_error_sections ["error: x", "note: y"] = ["error: x\nnote: y"] := by
  constructor
  · intro lines s hs
    rw [extract_error_sections] at hs
    rcases List.mem_map.mp hs with ⟨sec, hmem, rfl⟩
    exact ⟨sec, rfl,
      extractGo_sound lines [] false (fun h => absurd h (by decide))
        (fun _ => rfl) sec hmem⟩
  · decide

/-- C9 witness: the shape of a concrete extracted section. -/
theorem extract_error_sections_shape_witness :
    ∃ sec, "error: x\nnote: y" = joinNL sec
      ∧ (goodSection sec ∨ ∃ l, sec = [l] ∧ buildErrorSearch l = true) :=
  extract_error_sections_shape.1 ["error: x", "note: y"] "error: x\nnote: y"
    (by decide)
